import Mathlib

/-!
Verification development for the NMEA2000-AlertMessages library.

The development embeds, as executable Lean definitions:

* the three PGN codecs of `N2kAlertMessages.cpp`
  (`SetN2kPGN126983`/`ParseN2kPGN126983`, `SetN2kPGN126984`/`ParseN2kPGN126984`,
  `SetN2kPGN126985`/`ParseN2kPGN126985`),
* the alert state machine of `N2kAlerts.cpp` (`tN2kAlert` with
  `SetAlertExceeded`, `ResetAlert`, `TestAlertThreshold`,
  `ParseAlertResponse` and the configuration setters).

Machine integers are embedded as `Nat` with explicit `% 2^w` where the C
code can overflow; enum-typed values are carried as their raw numeric
values (the C decoders store raw out-of-range values unchanged, so a
closed inductive type would be unfaithful).  The transport primitives of
the external bus library (`tN2kMsg`, `tN2kScheduler`) are not part of this
repository; they are modelled from the specification as noted on each
definition.
-/

/-! ## Raw enumeration values, from `N2kAlertTypes.h` -/

def N2kts_AlertTypeEmergencyAlarm : Nat := 1
def N2kts_AlertTypeAlarm : Nat := 2
def N2kts_AlertTypeWarning : Nat := 5
def N2kts_AlertTypeCaution : Nat := 8

def N2kts_AlertCategoryNavigational : Nat := 0
def N2kts_AlertCategoryTechnical : Nat := 1

def N2kts_AlertTriggerManual : Nat := 0
def N2kts_AlertTriggerAuto : Nat := 1

def N2kts_AlertThresholdStatusNormal : Nat := 0
def N2kts_AlertThresholdStatusExceeded : Nat := 1
def N2kts_AlertThresholdStatusAcknowledged : Nat := 4

def N2kts_AlertStateDisabled : Nat := 0
def N2kts_AlertStateNormal : Nat := 1
def N2kts_AlertStateActive : Nat := 2
def N2kts_AlertStateSilenced : Nat := 3
def N2kts_AlertStateAcknowledged : Nat := 4

def N2kts_AlertResponseAcknowledge : Nat := 0
def N2kts_AlertResponseTemporarySilence : Nat := 1
def N2kts_AlertResponseTestCommandOff : Nat := 2
def N2kts_AlertResponseTestCommandOn : Nat := 3

def N2kts_AlertNo : Nat := 0
def N2kts_AlertYes : Nat := 1

def N2kts_AlertThresholdMethodEqual : Nat := 0
def N2kts_AlertThresholdMethodLower : Nat := 1
def N2kts_AlertThresholddMethodGreater : Nat := 2

/-! ## Bus-transport message model

`tN2kMsg` and its typed append/extract primitives belong to the external
bus-node stack, not to this repository.  They are modelled from the spec
(§6): an outbound buffer one appends typed fields to (unsigned integers of
1/2/8 bytes, little-endian, and length-prefixed text) tagged with a PGN
and a priority, and an inbound view exposing the same typed extraction
primitives plus the PGN tag, consumed via a cursor. -/

/-- Modelled from the spec: the collaborator's message object (§6) — a PGN
tag, a priority and a byte buffer. -/
structure tN2kMsg where
  PGN : Nat
  Priority : Nat
  Data : List Nat
deriving DecidableEq, Repr

/-- Modelled from the spec: `AddByte` stores the low 8 bits of the value. -/
def byteOf (v : Nat) : Nat := v % 256

/-- Modelled from the spec: `Add2ByteUInt` stores a 2-byte little-endian
unsigned integer (§4.3: "2-byte little/bus-endian unsigned"). -/
def le2Bytes (v : Nat) : List Nat :=
  [v % 256, v / 2 ^ 8 % 256]

/-- Modelled from the spec: `AddUInt64` stores an 8-byte little-endian
unsigned integer. -/
def le8Bytes (v : Nat) : List Nat :=
  [v % 256, v / 2 ^ 8 % 256, v / 2 ^ 16 % 256, v / 2 ^ 24 % 256,
   v / 2 ^ 32 % 256, v / 2 ^ 40 % 256, v / 2 ^ 48 % 256, v / 2 ^ 56 % 256]

/-- Modelled from the spec: `AddVarStr` stores a length-prefixed text field
(§4.3): a length byte (text length plus two), a type byte, then the text
bytes. -/
def varStrBytes (s : List Nat) : List Nat :=
  (s.length + 2) % 256 :: 1 :: s.map byteOf

/-- Modelled from the spec: `GetByte` extracts one byte at the cursor; the
collaborator's out-of-range default is `0xff`. -/
def getByte (d : List Nat) (i : Nat) : Nat := d.getD i 0xff

/-- Modelled from the spec: 2-byte little-endian unsigned extraction. -/
def get2ByteUInt (d : List Nat) (i : Nat) : Nat :=
  getByte d i + 2 ^ 8 * getByte d (i + 1)

/-- Modelled from the spec: 8-byte little-endian unsigned extraction. -/
def getUInt64 (d : List Nat) (i : Nat) : Nat :=
  getByte d i + 2 ^ 8 * getByte d (i + 1) + 2 ^ 16 * getByte d (i + 2) +
    2 ^ 24 * getByte d (i + 3) + 2 ^ 32 * getByte d (i + 4) +
    2 ^ 40 * getByte d (i + 5) + 2 ^ 48 * getByte d (i + 6) +
    2 ^ 56 * getByte d (i + 7)

/-- Modelled from the spec: `GetVarStr` decodes a length-prefixed text
field, copying at most the caller-provided buffer capacity (§4.3) and
advancing the cursor over the whole field.  Returns the copied text and
the next cursor position. -/
def getVarStr (d : List Nat) (i cap : Nat) : List Nat × Nat :=
  let len := getByte d i - 2
  (((d.drop (i + 2)).take len).take cap, i + 2 + len)

/-! ## PGN 126983 — Alert Notification codec (`N2kAlertMessages.cpp`) -/

/-- The field set of PGN 126983 (Alert Notification): one component per C
parameter of `SetN2kPGN126983` / `ParseN2kPGN126983`, enum-typed
parameters carried as raw numeric values. -/
structure PGN126983Fields where
  AlertType : Nat
  AlertCategory : Nat
  AlertSystem : Nat
  AlertSubSystem : Nat
  AlertID : Nat
  SourceNetworkID : Nat
  DataSourceInstance : Nat
  DataSourceIndex : Nat
  AlertOccurence : Nat
  AcknowledgeNetworkID : Nat
  TriggerCondition : Nat
  ThresholdStatus : Nat
  AlertPriority : Nat
  AlertState : Nat
  TemporarySilenceStatus : Nat
  AcknowledgeStatus : Nat
  EscalationStatus : Nat
  TemporarySilenceSupport : Nat
  AcknowledgeSupport : Nat
  EscalationSupport : Nat
deriving DecidableEq, Repr

/-- `SetN2kPGN126983` of `N2kAlertMessages.cpp`: encodes an Alert
Notification.  The byte list mirrors the `AddByte`/`Add2ByteUInt`/
`AddUInt64` call sequence of the source. -/
def SetN2kPGN126983 (f : PGN126983Fields) : tN2kMsg :=
  { PGN := 126983
    Priority := 2
    Data :=
      [byteOf ((f.AlertCategory <<< 4) ||| f.AlertType),
       byteOf f.AlertSystem,
       byteOf f.AlertSubSystem] ++
      le2Bytes f.AlertID ++
      le8Bytes f.SourceNetworkID ++
      [byteOf f.DataSourceInstance,
       byteOf f.DataSourceIndex,
       byteOf f.AlertOccurence,
       byteOf ((0x03 <<< 6) ||| (f.EscalationSupport <<< 5) |||
         (f.AcknowledgeSupport <<< 4) ||| (f.TemporarySilenceSupport <<< 3) |||
         (f.EscalationStatus <<< 2) ||| (f.AcknowledgeStatus <<< 1) |||
         f.TemporarySilenceStatus)] ++
      le8Bytes f.AcknowledgeNetworkID ++
      [byteOf ((f.ThresholdStatus <<< 4) ||| f.TriggerCondition),
       byteOf f.AlertPriority,
       byteOf f.AlertState] }

/-- `ParseN2kPGN126983` of `N2kAlertMessages.cpp`: decodes an Alert
Notification, failing only on a PGN mismatch.  Byte offsets follow the
sequential cursor of the source (28 bytes). -/
def ParseN2kPGN126983 (msg : tN2kMsg) : Option PGN126983Fields :=
  if msg.PGN ≠ 126983 then none else
  let d := msg.Data
  let v0 := getByte d 0
  let vs := getByte d 16
  let vt := getByte d 25
  some
    { AlertType := v0 &&& 0xf
      AlertCategory := (v0 >>> 4) &&& 0xf
      AlertSystem := getByte d 1
      AlertSubSystem := getByte d 2
      AlertID := get2ByteUInt d 3
      SourceNetworkID := getUInt64 d 5
      DataSourceInstance := getByte d 13
      DataSourceIndex := getByte d 14
      AlertOccurence := getByte d 15
      TemporarySilenceStatus := vs &&& 0x01
      AcknowledgeStatus := (vs >>> 1) &&& 0x01
      EscalationStatus := (vs >>> 2) &&& 0x01
      TemporarySilenceSupport := (vs >>> 3) &&& 0x01
      AcknowledgeSupport := (vs >>> 4) &&& 0x01
      EscalationSupport := (vs >>> 5) &&& 0x01
      AcknowledgeNetworkID := getUInt64 d 17
      TriggerCondition := vt &&& 0xf
      ThresholdStatus := (vt >>> 4) &&& 0xf
      AlertPriority := getByte d 26
      AlertState := getByte d 27 }

/-! ## PGN 126984 — Alert Response codec -/

/-- The field set of PGN 126984 (Alert Response): one component per C
parameter of `SetN2kPGN126984` / `ParseN2kPGN126984`. -/
structure PGN126984Fields where
  AlertType : Nat
  AlertCategory : Nat
  AlertSystem : Nat
  AlertSubSystem : Nat
  AlertID : Nat
  SourceNetworkID : Nat
  DataSourceInstance : Nat
  DataSourceIndex : Nat
  AlertOccurence : Nat
  AcknowledgeNetworkID : Nat
  ResponseCommand : Nat
deriving DecidableEq, Repr

/-- `SetN2kPGN126984` of `N2kAlertMessages.cpp`: encodes an Alert
Response; the response byte is `0xFC | command`. -/
def SetN2kPGN126984 (f : PGN126984Fields) : tN2kMsg :=
  { PGN := 126984
    Priority := 2
    Data :=
      [byteOf ((f.AlertCategory <<< 4) ||| f.AlertType),
       byteOf f.AlertSystem,
       byteOf f.AlertSubSystem] ++
      le2Bytes f.AlertID ++
      le8Bytes f.SourceNetworkID ++
      [byteOf f.DataSourceInstance,
       byteOf f.DataSourceIndex,
       byteOf f.AlertOccurence] ++
      le8Bytes f.AcknowledgeNetworkID ++
      [byteOf (0xFC ||| f.ResponseCommand)] }

/-- `ParseN2kPGN126984` of `N2kAlertMessages.cpp`: decodes an Alert
Response, failing only on a PGN mismatch; the command is the low two bits
of the response byte (25 bytes). -/
def ParseN2kPGN126984 (msg : tN2kMsg) : Option PGN126984Fields :=
  if msg.PGN ≠ 126984 then none else
  let d := msg.Data
  let v0 := getByte d 0
  some
    { AlertType := v0 &&& 0xf
      AlertCategory := (v0 >>> 4) &&& 0xf
      AlertSystem := getByte d 1
      AlertSubSystem := getByte d 2
      AlertID := get2ByteUInt d 3
      SourceNetworkID := getUInt64 d 5
      DataSourceInstance := getByte d 13
      DataSourceIndex := getByte d 14
      AlertOccurence := getByte d 15
      AcknowledgeNetworkID := getUInt64 d 16
      ResponseCommand := getByte d 24 &&& 0x03 }

/-! ## PGN 126985 — Alert Text codec -/

/-- The field set of PGN 126985 (Alert Text): one component per C
parameter of `SetN2kPGN126985` / `ParseN2kPGN126985`; the two text fields
are byte lists. -/
structure PGN126985Fields where
  AlertType : Nat
  AlertCategory : Nat
  AlertSystem : Nat
  AlertSubSystem : Nat
  AlertID : Nat
  SourceNetworkID : Nat
  DataSourceInstance : Nat
  DataSourceIndex : Nat
  AlertOccurence : Nat
  AlertLanguage : Nat
  AlertTextDescription : List Nat
  AlertLocationTextDescription : List Nat
deriving DecidableEq, Repr

/-- `SetN2kPGN126985` of `N2kAlertMessages.cpp`: encodes an Alert Text
message; the two text fields are appended with `AddVarStr`, description
before location. -/
def SetN2kPGN126985 (f : PGN126985Fields) : tN2kMsg :=
  { PGN := 126985
    Priority := 2
    Data :=
      [byteOf ((f.AlertCategory <<< 4) ||| f.AlertType),
       byteOf f.AlertSystem,
       byteOf f.AlertSubSystem] ++
      le2Bytes f.AlertID ++
      le8Bytes f.SourceNetworkID ++
      [byteOf f.DataSourceInstance,
       byteOf f.DataSourceIndex,
       byteOf f.AlertOccurence,
       byteOf f.AlertLanguage] ++
      varStrBytes f.AlertTextDescription ++
      varStrBytes f.AlertLocationTextDescription }

/-- `ParseN2kPGN126985` of `N2kAlertMessages.cpp`: decodes an Alert Text
message, failing only on a PGN mismatch.  The source passes
`sizeof(AlertTextDescription)` — the size of a `char*` pointer, i.e. 4 or
8 depending on the platform, not the 50-byte text buffer capacity — as the
capacity argument of `GetVarStr` for both text fields; `ptrSize` is that
platform pointer size. -/
def ParseN2kPGN126985 (ptrSize : Nat) (msg : tN2kMsg) :
    Option PGN126985Fields :=
  if msg.PGN ≠ 126985 then none else
  let d := msg.Data
  let v0 := getByte d 0
  let descPair := getVarStr d 17 ptrSize
  let locPair := getVarStr d descPair.2 ptrSize
  some
    { AlertType := v0 &&& 0xf
      AlertCategory := (v0 >>> 4) &&& 0xf
      AlertSystem := getByte d 1
      AlertSubSystem := getByte d 2
      AlertID := get2ByteUInt d 3
      SourceNetworkID := getUInt64 d 5
      DataSourceInstance := getByte d 13
      DataSourceIndex := getByte d 14
      AlertOccurence := getByte d 15
      AlertLanguage := getByte d 16
      AlertTextDescription := descPair.1
      AlertLocationTextDescription := locPair.1 }

/-! ## The alert object (`tN2kAlert` of `N2kAlerts.h` / `N2kAlerts.cpp`)

One field per data member of the C++ class.  `uint8_t`/`uint16_t`/
`uint32_t`/`uint64_t` members are `Nat`s (reduced mod the width where the
C code can overflow); the two bounded text buffers are byte lists.  The
owned `tN2kScheduler` is external-collaborator code and is modelled from
the spec (§2, §9): an explicit absolute deadline (`SilenceDeadline`)
compared against an injected monotonic clock reading, so `FromNow(d)` at
time `now` stores `now + d` and `IsTime()` at time `now` reads
`SilenceDeadline ≤ now`. -/

structure tN2kAlert where
  AlertType : Nat
  AlertCategory : Nat
  AlertId : Nat
  AlertPriority : Nat
  AlertState : Nat
  ThresholdStatus : Nat
  TemporarySilenceSupport : Nat
  AcknowledgeSupport : Nat
  EscalationSupport : Nat
  TemporarySilenceStatus : Nat
  AcknowledgeStatus : Nat
  EscalationStatus : Nat
  Occurence : Nat
  OccurenceThreshold : Nat
  TriggerCondition : Nat
  AlertSystem : Nat
  AlertSubSystem : Nat
  AcknowledgeNetworkId : Nat
  AlertLanguage : Nat
  AlertDescription : List Nat
  AlertLocation : List Nat
  DataSourceInstance : Nat
  DataSourceIndexSource : Nat
  DataSourceNetworkId : Nat
  ThresholdMethod : Nat
  ThresholdFormat : Nat
  ThresholdLevel : Nat
  TemporarySilenceDelay : Nat
  SilenceDeadline : Nat
deriving DecidableEq, Repr

/-- `String_Len` of `N2kAlerts.h`. -/
def String_Len : Nat := 50

/-- The nine-argument `tN2kAlert` constructor of `N2kAlerts.cpp`: sets the
identity, classification and support flags, clears all status fields,
arms the silence delay at 3600 seconds, and normalizes an
`OccurenceThreshold` of 0 or above 250 to 1.  The members the constructor
leaves unassigned (system, subsystem, network ids, language, texts, data
source and threshold configuration — later set through the setters) are
taken as explicit `uninit*` arguments standing for their indeterminate
initial contents. -/
def tN2kAlertConstruct (AlertType AlertCategory AlertId TriggerCondition
    AlertPriority TemporarySilenceSupport AcknowledgeSupport
    EscalationSupport OccurenceThreshold : Nat)
    (uninitSystem uninitSubSystem uninitAckNetworkId uninitLanguage : Nat)
    (uninitDescription uninitLocation : List Nat)
    (uninitDataSourceInstance uninitDataSourceIndexSource
     uninitDataSourceNetworkId uninitMethod uninitFormat
     uninitLevel : Nat) : tN2kAlert :=
  { AlertType := AlertType
    AlertCategory := AlertCategory
    AlertId := AlertId % 2 ^ 16
    AlertPriority := AlertPriority % 2 ^ 8
    AlertState := N2kts_AlertStateNormal
    ThresholdStatus := N2kts_AlertThresholdStatusNormal
    TemporarySilenceSupport := TemporarySilenceSupport
    AcknowledgeSupport := AcknowledgeSupport
    EscalationSupport := EscalationSupport
    TemporarySilenceStatus := N2kts_AlertNo
    AcknowledgeStatus := N2kts_AlertNo
    EscalationStatus := N2kts_AlertNo
    Occurence := 0
    OccurenceThreshold :=
      if OccurenceThreshold % 2 ^ 8 = 0 then 1
      else if OccurenceThreshold % 2 ^ 8 > 250 then 1
      else OccurenceThreshold % 2 ^ 8
    TriggerCondition := TriggerCondition
    AlertSystem := uninitSystem
    AlertSubSystem := uninitSubSystem
    AcknowledgeNetworkId := uninitAckNetworkId
    AlertLanguage := uninitLanguage
    AlertDescription := uninitDescription
    AlertLocation := uninitLocation
    DataSourceInstance := uninitDataSourceInstance
    DataSourceIndexSource := uninitDataSourceIndexSource
    DataSourceNetworkId := uninitDataSourceNetworkId
    ThresholdMethod := uninitMethod
    ThresholdFormat := uninitFormat
    ThresholdLevel := uninitLevel
    TemporarySilenceDelay := 3600 * 1000
    SilenceDeadline := 3600 * 1000 }

/-- `tN2kAlert::SetAlertSystem`: stores system, subsystem, acknowledge
network id and language, and copies the two texts with
`strlcpy(_, _, String_Len)`, which keeps at most `String_Len - 1`
characters. -/
def SetAlertSystem (a : tN2kAlert) (Alertsystem AlertSubsystem
    AcknowledgeNetworkId AlertLanguage : Nat)
    (AlertDescription AlertLocation : List Nat) : tN2kAlert :=
  { a with
    AlertSystem := Alertsystem % 2 ^ 8
    AlertSubSystem := AlertSubsystem % 2 ^ 8
    AcknowledgeNetworkId := AcknowledgeNetworkId % 2 ^ 64
    AlertLanguage := AlertLanguage
    AlertDescription := AlertDescription.take (String_Len - 1)
    AlertLocation := AlertLocation.take (String_Len - 1) }

/-- `tN2kAlert::SetAlertDataSource`. -/
def SetAlertDataSource (a : tN2kAlert) (DataSourceInstance
    DatesourceIndexSource DataSourceNetworkId : Nat) : tN2kAlert :=
  { a with
    DataSourceNetworkId := DataSourceNetworkId % 2 ^ 64
    DataSourceInstance := DataSourceInstance % 2 ^ 8
    DataSourceIndexSource := DatesourceIndexSource % 2 ^ 8 }

/-- `tN2kAlert::SetAlertThreshold`. -/
def SetAlertThreshold (a : tN2kAlert) (Method Format Level : Nat) :
    tN2kAlert :=
  { a with
    ThresholdMethod := Method
    ThresholdFormat := Format % 2 ^ 8
    ThresholdLevel := Level % 2 ^ 64 }

/-- `tN2kAlert::SetTemporarySilenceTime`: stores the delay in
milliseconds (`seconds * 1000` on a `uint16_t` argument). -/
def SetTemporarySilenceTime (a : tN2kAlert) (seconds : Nat) : tN2kAlert :=
  { a with TemporarySilenceDelay := seconds % 2 ^ 16 * 1000 }

/-- `tN2kAlert::SetOccurenceThreshold`: stores the argument and then
normalizes a stored 0 to 1.  (There is no upper clamp here; only the
constructor resets values above 250.) -/
def SetOccurenceThreshold (a : tN2kAlert) (threshold : Nat) : tN2kAlert :=
  let a := { a with OccurenceThreshold := threshold % 2 ^ 8 }
  if a.OccurenceThreshold = 0 then { a with OccurenceThreshold := 1 } else a

/-- `tN2kAlert::SetAlertExceeded` of `N2kAlerts.cpp`: the **Exceed**
transition.  Resets an occurrence counter above 250, then — if the
threshold status is Normal — increments the counter and moves to Exceeded
once it reaches the occurrence threshold, and finally — if the threshold
status is Exceeded — resolves the lifecycle state from the silence and
acknowledge flags, acknowledge last. -/
def SetAlertExceeded (a : tN2kAlert) : tN2kAlert :=
  let a := if a.Occurence > 250 then { a with Occurence := 0 } else a
  let a :=
    if a.ThresholdStatus = N2kts_AlertThresholdStatusNormal then
      let a := { a with Occurence := (a.Occurence + 1) % 2 ^ 8 }
      if a.Occurence ≥ a.OccurenceThreshold then
        { a with ThresholdStatus := N2kts_AlertThresholdStatusExceeded }
      else a
    else a
  if a.ThresholdStatus = N2kts_AlertThresholdStatusExceeded then
    let a := { a with AlertState := N2kts_AlertStateActive }
    let a :=
      if a.TemporarySilenceStatus = N2kts_AlertYes then
        { a with AlertState := N2kts_AlertStateSilenced }
      else a
    if a.AcknowledgeStatus = N2kts_AlertYes then
      { a with
        AlertState := N2kts_AlertStateAcknowledged
        ThresholdStatus := N2kts_AlertThresholdStatusAcknowledged }
    else a
  else a

/-- `tN2kAlert::ResetAlert` of `N2kAlerts.cpp`: the **Reset** transition.
Silence status and its timer are untouched. -/
def ResetAlert (a : tN2kAlert) : tN2kAlert :=
  { a with
    ThresholdStatus := N2kts_AlertThresholdStatusNormal
    AlertState := N2kts_AlertStateNormal
    AcknowledgeStatus := N2kts_AlertNo
    Occurence := 0 }

/-- `tN2kAlert::TestAlertThreshold` of `N2kAlerts.cpp`: compares the
sample against the configured level with the configured method, invoking
the Exceed or Reset transition; then, independently, clears the temporary
silence status if the silence timer has elapsed at the injected clock
reading `now`; returns the updated alert and the resulting threshold
status. -/
def TestAlertThreshold (a : tN2kAlert) (now v : Nat) : tN2kAlert × Nat :=
  let a :=
    if a.ThresholdMethod = N2kts_AlertThresholddMethodGreater then
      if v > a.ThresholdLevel then SetAlertExceeded a else ResetAlert a
    else if a.ThresholdMethod = N2kts_AlertThresholdMethodLower then
      if v < a.ThresholdLevel then SetAlertExceeded a else ResetAlert a
    else if a.ThresholdMethod = N2kts_AlertThresholdMethodEqual then
      if v = a.ThresholdLevel then SetAlertExceeded a else ResetAlert a
    else a
  let a :=
    if a.SilenceDeadline ≤ now then
      { a with TemporarySilenceStatus := N2kts_AlertNo }
    else a
  (a, a.ThresholdStatus)

/-- `tN2kAlert::ParseAlertResponse` of `N2kAlerts.cpp`: decodes the
message as PGN 126984 (through the `ParseN2kAlertResponse` alias of
`N2kAlertMessages.h`, taken as propagating the decoder's boolean result);
on decode failure returns false untouched; on a system/subsystem mismatch
returns true untouched; otherwise dispatches on the response command —
Acknowledge sets the acknowledge status, TemporarySilence sets the silence
status and re-arms the silence timer `FromNow(TemporarySilenceDelay)` at
the injected clock reading `now`, the two test commands do nothing. -/
def ParseAlertResponse (a : tN2kAlert) (now : Nat) (msg : tN2kMsg) :
    tN2kAlert × Bool :=
  match ParseN2kPGN126984 msg with
  | none => (a, false)
  | some f =>
    if f.AlertSystem = a.AlertSystem ∧ f.AlertSubSystem = a.AlertSubSystem
    then
      if f.ResponseCommand = N2kts_AlertResponseAcknowledge then
        ({ a with AcknowledgeStatus := N2kts_AlertYes }, true)
      else if f.ResponseCommand = N2kts_AlertResponseTemporarySilence then
        ({ a with
            TemporarySilenceStatus := N2kts_AlertYes
            SilenceDeadline := now + a.TemporarySilenceDelay }, true)
      else (a, true)
    else (a, true)

/-- `tN2kAlert::SetN2kAlert`: encodes this alert's fields as an Alert
Notification (PGN 126983). -/
def SetN2kAlert (a : tN2kAlert) : tN2kMsg :=
  SetN2kPGN126983
    { AlertType := a.AlertType
      AlertCategory := a.AlertCategory
      AlertSystem := a.AlertSystem
      AlertSubSystem := a.AlertSubSystem
      AlertID := a.AlertId
      SourceNetworkID := a.DataSourceNetworkId
      DataSourceInstance := a.DataSourceInstance
      DataSourceIndex := a.DataSourceIndexSource
      AlertOccurence := a.Occurence
      AcknowledgeNetworkID := a.AcknowledgeNetworkId
      TriggerCondition := a.TriggerCondition
      ThresholdStatus := a.ThresholdStatus
      AlertPriority := a.AlertPriority
      AlertState := a.AlertState
      TemporarySilenceStatus := a.TemporarySilenceStatus
      AcknowledgeStatus := a.AcknowledgeStatus
      EscalationStatus := a.EscalationStatus
      TemporarySilenceSupport := a.TemporarySilenceSupport
      AcknowledgeSupport := a.AcknowledgeSupport
      EscalationSupport := a.EscalationSupport }

/-- `tN2kAlert::SetN2kAlertText`: encodes this alert's fields as an Alert
Text message (PGN 126985). -/
def SetN2kAlertText (a : tN2kAlert) : tN2kMsg :=
  SetN2kPGN126985
    { AlertType := a.AlertType
      AlertCategory := a.AlertCategory
      AlertSystem := a.AlertSystem
      AlertSubSystem := a.AlertSubSystem
      AlertID := a.AlertId
      SourceNetworkID := a.DataSourceNetworkId
      DataSourceInstance := a.DataSourceInstance
      DataSourceIndex := a.DataSourceIndexSource
      AlertOccurence := a.Occurence
      AlertLanguage := a.AlertLanguage
      AlertTextDescription := a.AlertDescription
      AlertLocationTextDescription := a.AlertLocation }

/-! ## Public operations and reachability

`tN2kOp` has one constructor per mutating public operation of
`tN2kAlert`; the getters and the two encoders do not mutate the alert.
Operations that read the clock (`TestAlertThreshold`,
`ParseAlertResponse`) carry the injected monotonic clock reading. -/

inductive tN2kOp where
  | testAlertThreshold (now v : Nat)
  | parseAlertResponse (now : Nat) (msg : tN2kMsg)
  | setAlertSystem (sys subsys ackNid lang : Nat) (desc loc : List Nat)
  | setAlertDataSource (inst idx nid : Nat)
  | setAlertThreshold (method format level : Nat)
  | setTemporarySilenceTime (seconds : Nat)
  | setOccurenceThreshold (t : Nat)
deriving DecidableEq, Repr

/-- The state transformation of one public operation. -/
def tN2kStep (op : tN2kOp) (a : tN2kAlert) : tN2kAlert :=
  match op with
  | .testAlertThreshold now v => (TestAlertThreshold a now v).1
  | .parseAlertResponse now msg => (ParseAlertResponse a now msg).1
  | .setAlertSystem sys subsys ackNid lang desc loc =>
      SetAlertSystem a sys subsys ackNid lang desc loc
  | .setAlertDataSource inst idx nid => SetAlertDataSource a inst idx nid
  | .setAlertThreshold method format level =>
      SetAlertThreshold a method format level
  | .setTemporarySilenceTime seconds => SetTemporarySilenceTime a seconds
  | .setOccurenceThreshold t => SetOccurenceThreshold a t

/-- States reachable from a constructed alert by any sequence of public
operations. -/
inductive tN2kReachable : tN2kAlert → Prop where
  | constructed (ty cat id trig prio tss acks ess occT us uss uan ul
      udi udx udn um uf ulv : Nat) (ud ulo : List Nat) :
      tN2kReachable (tN2kAlertConstruct ty cat id trig prio tss acks ess
        occT us uss uan ul ud ulo udi udx udn um uf ulv)
  | step (op : tN2kOp) (a : tN2kAlert) :
      tN2kReachable a → tN2kReachable (tN2kStep op a)

/-! ## Sample values

A concrete alert, mirroring the `TemperatureAlert` of the repository's
example sketch (type Warning, category Technical, id 10, trigger Auto,
priority 100, silence and acknowledge supported, occurrence threshold 1,
threshold method Greater at level 60). -/

def sampleAlert : tN2kAlert :=
  tN2kAlertConstruct N2kts_AlertTypeWarning N2kts_AlertCategoryTechnical
    10 N2kts_AlertTriggerAuto 100 N2kts_AlertYes N2kts_AlertYes
    N2kts_AlertNo 1 1 1 7 0 [] [] 1 1 3
    N2kts_AlertThresholddMethodGreater 0 60

/-- A concrete well-formed Alert Response field set addressed to
`sampleAlert`'s system 1 / subsystem 1. -/
def sampleResponseFields : PGN126984Fields :=
  { AlertType := 5, AlertCategory := 1, AlertSystem := 1,
    AlertSubSystem := 1, AlertID := 10, SourceNetworkID := 3,
    DataSourceInstance := 1, DataSourceIndex := 1, AlertOccurence := 0,
    AcknowledgeNetworkID := 7, ResponseCommand := 0 }

example : ParseN2kPGN126984 (SetN2kPGN126984 sampleResponseFields) =
    some sampleResponseFields := by decide

/-! ## Bit-packing helper facts

Bounded facts about the shift/mask packing used by the codec, settled by
exhaustive evaluation. -/

theorem nibblePackLow : ∀ c < 16, ∀ t < 16,
    byteOf ((c <<< 4) ||| t) &&& 0xf = t := by decide

theorem nibblePackHigh : ∀ c < 16, ∀ t < 16,
    (byteOf ((c <<< 4) ||| t) >>> 4) &&& 0xf = c := by decide

theorem nibblePackByte : ∀ c < 16, ∀ t < 16,
    byteOf ((c <<< 4) ||| t) = (c <<< 4) ||| t := by decide

theorem respPackLow : ∀ c < 4, byteOf (0xFC ||| c) &&& 0x03 = c := by
  decide

theorem statusPack : ∀ es < 2, ∀ ak < 2, ∀ ts < 2, ∀ e < 2, ∀ k < 2,
    ∀ s < 2,
    byteOf ((0x03 <<< 6) ||| (es <<< 5) ||| (ak <<< 4) ||| (ts <<< 3) |||
        (e <<< 2) ||| (k <<< 1) ||| s) &&& 0x01 = s ∧
    (byteOf ((0x03 <<< 6) ||| (es <<< 5) ||| (ak <<< 4) ||| (ts <<< 3) |||
        (e <<< 2) ||| (k <<< 1) ||| s) >>> 1) &&& 0x01 = k ∧
    (byteOf ((0x03 <<< 6) ||| (es <<< 5) ||| (ak <<< 4) ||| (ts <<< 3) |||
        (e <<< 2) ||| (k <<< 1) ||| s) >>> 2) &&& 0x01 = e ∧
    (byteOf ((0x03 <<< 6) ||| (es <<< 5) ||| (ak <<< 4) ||| (ts <<< 3) |||
        (e <<< 2) ||| (k <<< 1) ||| s) >>> 3) &&& 0x01 = ts ∧
    (byteOf ((0x03 <<< 6) ||| (es <<< 5) ||| (ak <<< 4) ||| (ts <<< 3) |||
        (e <<< 2) ||| (k <<< 1) ||| s) >>> 4) &&& 0x01 = ak ∧
    (byteOf ((0x03 <<< 6) ||| (es <<< 5) ||| (ak <<< 4) ||| (ts <<< 3) |||
        (e <<< 2) ||| (k <<< 1) ||| s) >>> 5) &&& 0x01 = es := by
  intro es hes ak hak ts hts e he k hk s hs
  interval_cases es <;> interval_cases ak <;> interval_cases ts <;>
    interval_cases e <;> interval_cases k <;> interval_cases s <;> decide

theorem byteOfEq (v : Nat) (h : v < 256) : byteOf v = v :=
  Nat.mod_eq_of_lt h

theorem le2Roundtrip (v : Nat) (h : v < 2 ^ 16) :
    v % 256 + 2 ^ 8 * (v / 2 ^ 8 % 256) = v := by omega

theorem le8Roundtrip (v : Nat) (h : v < 2 ^ 64) :
    v % 256 + 2 ^ 8 * (v / 2 ^ 8 % 256) + 2 ^ 16 * (v / 2 ^ 16 % 256) +
      2 ^ 24 * (v / 2 ^ 24 % 256) + 2 ^ 32 * (v / 2 ^ 32 % 256) +
      2 ^ 40 * (v / 2 ^ 40 % 256) + 2 ^ 48 * (v / 2 ^ 48 % 256) +
      2 ^ 56 * (v / 2 ^ 56 % 256) = v := by omega

/-! ## Codec round trips for the two fixed-layout message kinds -/

/-- The ranges the C parameter types and enum values of PGN 126983 impose
on the encoder's inputs. -/
def PGN126983Fields.WF (f : PGN126983Fields) : Prop :=
  f.AlertType < 16 ∧ f.AlertCategory < 16 ∧ f.AlertSystem < 256 ∧
  f.AlertSubSystem < 256 ∧ f.AlertID < 2 ^ 16 ∧
  f.SourceNetworkID < 2 ^ 64 ∧ f.DataSourceInstance < 256 ∧
  f.DataSourceIndex < 256 ∧ f.AlertOccurence < 256 ∧
  f.AcknowledgeNetworkID < 2 ^ 64 ∧ f.TriggerCondition < 16 ∧
  f.ThresholdStatus < 16 ∧ f.AlertPriority < 256 ∧ f.AlertState < 256 ∧
  f.TemporarySilenceStatus < 2 ∧ f.AcknowledgeStatus < 2 ∧
  f.EscalationStatus < 2 ∧ f.TemporarySilenceSupport < 2 ∧
  f.AcknowledgeSupport < 2 ∧ f.EscalationSupport < 2

/-- Decoding an encoded Alert Notification recovers every field (the two
reserved high bits of the status byte are fixed on encode and ignored on
decode). -/
theorem parseSetN2kPGN126983 (f : PGN126983Fields) (h : f.WF) :
    ParseN2kPGN126983 (SetN2kPGN126983 f) = some f := by
  obtain ⟨hty, hcat, hsys, hsub, hid, hsrc, hdsi, hdsx, hocc, hack, htrig,
    htst, hpri, hst, htss, haks, hess, htsup, hasup, hesup⟩ := h
  have hred : ParseN2kPGN126983 (SetN2kPGN126983 f) = some
      { AlertType :=
          byteOf ((f.AlertCategory <<< 4) ||| f.AlertType) &&& 0xf
        AlertCategory :=
          (byteOf ((f.AlertCategory <<< 4) ||| f.AlertType) >>> 4) &&& 0xf
        AlertSystem := byteOf f.AlertSystem
        AlertSubSystem := byteOf f.AlertSubSystem
        AlertID :=
          f.AlertID % 256 + 2 ^ 8 * (f.AlertID / 2 ^ 8 % 256)
        SourceNetworkID :=
          f.SourceNetworkID % 256 +
            2 ^ 8 * (f.SourceNetworkID / 2 ^ 8 % 256) +
            2 ^ 16 * (f.SourceNetworkID / 2 ^ 16 % 256) +
            2 ^ 24 * (f.SourceNetworkID / 2 ^ 24 % 256) +
            2 ^ 32 * (f.SourceNetworkID / 2 ^ 32 % 256) +
            2 ^ 40 * (f.SourceNetworkID / 2 ^ 40 % 256) +
            2 ^ 48 * (f.SourceNetworkID / 2 ^ 48 % 256) +
            2 ^ 56 * (f.SourceNetworkID / 2 ^ 56 % 256)
        DataSourceInstance := byteOf f.DataSourceInstance
        DataSourceIndex := byteOf f.DataSourceIndex
        AlertOccurence := byteOf f.AlertOccurence
        TemporarySilenceStatus :=
          byteOf ((0x03 <<< 6) ||| (f.EscalationSupport <<< 5) |||
            (f.AcknowledgeSupport <<< 4) |||
            (f.TemporarySilenceSupport <<< 3) |||
            (f.EscalationStatus <<< 2) ||| (f.AcknowledgeStatus <<< 1) |||
            f.TemporarySilenceStatus) &&& 0x01
        AcknowledgeStatus :=
          (byteOf ((0x03 <<< 6) ||| (f.EscalationSupport <<< 5) |||
            (f.AcknowledgeSupport <<< 4) |||
            (f.TemporarySilenceSupport <<< 3) |||
            (f.EscalationStatus <<< 2) ||| (f.AcknowledgeStatus <<< 1) |||
            f.TemporarySilenceStatus) >>> 1) &&& 0x01
        EscalationStatus :=
          (byteOf ((0x03 <<< 6) ||| (f.EscalationSupport <<< 5) |||
            (f.AcknowledgeSupport <<< 4) |||
            (f.TemporarySilenceSupport <<< 3) |||
            (f.EscalationStatus <<< 2) ||| (f.AcknowledgeStatus <<< 1) |||
            f.TemporarySilenceStatus) >>> 2) &&& 0x01
        TemporarySilenceSupport :=
          (byteOf ((0x03 <<< 6) ||| (f.EscalationSupport <<< 5) |||
            (f.AcknowledgeSupport <<< 4) |||
            (f.TemporarySilenceSupport <<< 3) |||
            (f.EscalationStatus <<< 2) ||| (f.AcknowledgeStatus <<< 1) |||
            f.TemporarySilenceStatus) >>> 3) &&& 0x01
        AcknowledgeSupport :=
          (byteOf ((0x03 <<< 6) ||| (f.EscalationSupport <<< 5) |||
            (f.AcknowledgeSupport <<< 4) |||
            (f.TemporarySilenceSupport <<< 3) |||
            (f.EscalationStatus <<< 2) ||| (f.AcknowledgeStatus <<< 1) |||
            f.TemporarySilenceStatus) >>> 4) &&& 0x01
        EscalationSupport :=
          (byteOf ((0x03 <<< 6) ||| (f.EscalationSupport <<< 5) |||
            (f.AcknowledgeSupport <<< 4) |||
            (f.TemporarySilenceSupport <<< 3) |||
            (f.EscalationStatus <<< 2) ||| (f.AcknowledgeStatus <<< 1) |||
            f.TemporarySilenceStatus) >>> 5) &&& 0x01
        AcknowledgeNetworkID :=
          f.AcknowledgeNetworkID % 256 +
            2 ^ 8 * (f.AcknowledgeNetworkID / 2 ^ 8 % 256) +
            2 ^ 16 * (f.AcknowledgeNetworkID / 2 ^ 16 % 256) +
            2 ^ 24 * (f.AcknowledgeNetworkID / 2 ^ 24 % 256) +
            2 ^ 32 * (f.AcknowledgeNetworkID / 2 ^ 32 % 256) +
            2 ^ 40 * (f.AcknowledgeNetworkID / 2 ^ 40 % 256) +
            2 ^ 48 * (f.AcknowledgeNetworkID / 2 ^ 48 % 256) +
            2 ^ 56 * (f.AcknowledgeNetworkID / 2 ^ 56 % 256)
        TriggerCondition :=
          byteOf ((f.ThresholdStatus <<< 4) ||| f.TriggerCondition) &&& 0xf
        ThresholdStatus :=
          (byteOf ((f.ThresholdStatus <<< 4) ||| f.TriggerCondition) >>> 4)
            &&& 0xf
        AlertPriority := byteOf f.AlertPriority
        AlertState := byteOf f.AlertState } := rfl
  rw [hred]
  refine congrArg some ?_
  obtain ⟨hs1, hs2, hs3, hs4, hs5, hs6⟩ :=
    statusPack f.EscalationSupport hesup f.AcknowledgeSupport hasup
      f.TemporarySilenceSupport htsup f.EscalationStatus hess
      f.AcknowledgeStatus haks f.TemporarySilenceStatus htss
  cases f
  simp only [PGN126983Fields.mk.injEq] at *
  exact ⟨nibblePackLow _ hcat _ hty, nibblePackHigh _ hcat _ hty,
    byteOfEq _ hsys, byteOfEq _ hsub, le2Roundtrip _ hid,
    le8Roundtrip _ hsrc, byteOfEq _ hdsi, byteOfEq _ hdsx,
    byteOfEq _ hocc, le8Roundtrip _ hack, nibblePackLow _ htst _ htrig,
    nibblePackHigh _ htst _ htrig, byteOfEq _ hpri, byteOfEq _ hst,
    hs1, hs2, hs3, hs4, hs5, hs6⟩

/-- The ranges the C parameter types and enum values of PGN 126984 impose
on the encoder's inputs. -/
def PGN126984Fields.WF (f : PGN126984Fields) : Prop :=
  f.AlertType < 16 ∧ f.AlertCategory < 16 ∧ f.AlertSystem < 256 ∧
  f.AlertSubSystem < 256 ∧ f.AlertID < 2 ^ 16 ∧
  f.SourceNetworkID < 2 ^ 64 ∧ f.DataSourceInstance < 256 ∧
  f.DataSourceIndex < 256 ∧ f.AlertOccurence < 256 ∧
  f.AcknowledgeNetworkID < 2 ^ 64 ∧ f.ResponseCommand < 4

/-- Decoding an encoded Alert Response recovers every field (the six
reserved high bits of the response byte are fixed on encode and masked
off on decode). -/
theorem parseSetN2kPGN126984 (f : PGN126984Fields) (h : f.WF) :
    ParseN2kPGN126984 (SetN2kPGN126984 f) = some f := by
  obtain ⟨hty, hcat, hsys, hsub, hid, hsrc, hdsi, hdsx, hocc, hack,
    hcmd⟩ := h
  have hred : ParseN2kPGN126984 (SetN2kPGN126984 f) = some
      { AlertType :=
          byteOf ((f.AlertCategory <<< 4) ||| f.AlertType) &&& 0xf
        AlertCategory :=
          (byteOf ((f.AlertCategory <<< 4) ||| f.AlertType) >>> 4) &&& 0xf
        AlertSystem := byteOf f.AlertSystem
        AlertSubSystem := byteOf f.AlertSubSystem
        AlertID :=
          f.AlertID % 256 + 2 ^ 8 * (f.AlertID / 2 ^ 8 % 256)
        SourceNetworkID :=
          f.SourceNetworkID % 256 +
            2 ^ 8 * (f.SourceNetworkID / 2 ^ 8 % 256) +
            2 ^ 16 * (f.SourceNetworkID / 2 ^ 16 % 256) +
            2 ^ 24 * (f.SourceNetworkID / 2 ^ 24 % 256) +
            2 ^ 32 * (f.SourceNetworkID / 2 ^ 32 % 256) +
            2 ^ 40 * (f.SourceNetworkID / 2 ^ 40 % 256) +
            2 ^ 48 * (f.SourceNetworkID / 2 ^ 48 % 256) +
            2 ^ 56 * (f.SourceNetworkID / 2 ^ 56 % 256)
        DataSourceInstance := byteOf f.DataSourceInstance
        DataSourceIndex := byteOf f.DataSourceIndex
        AlertOccurence := byteOf f.AlertOccurence
        AcknowledgeNetworkID :=
          f.AcknowledgeNetworkID % 256 +
            2 ^ 8 * (f.AcknowledgeNetworkID / 2 ^ 8 % 256) +
            2 ^ 16 * (f.AcknowledgeNetworkID / 2 ^ 16 % 256) +
            2 ^ 24 * (f.AcknowledgeNetworkID / 2 ^ 24 % 256) +
            2 ^ 32 * (f.AcknowledgeNetworkID / 2 ^ 32 % 256) +
            2 ^ 40 * (f.AcknowledgeNetworkID / 2 ^ 40 % 256) +
            2 ^ 48 * (f.AcknowledgeNetworkID / 2 ^ 48 % 256) +
            2 ^ 56 * (f.AcknowledgeNetworkID / 2 ^ 56 % 256)
        ResponseCommand :=
          byteOf (0xFC ||| f.ResponseCommand) &&& 0x03 } := rfl
  rw [hred]
  refine congrArg some ?_
  cases f
  simp only [PGN126984Fields.mk.injEq] at *
  exact ⟨nibblePackLow _ hcat _ hty, nibblePackHigh _ hcat _ hty,
    byteOfEq _ hsys, byteOfEq _ hsub, le2Roundtrip _ hid,
    le8Roundtrip _ hsrc, byteOfEq _ hdsi, byteOfEq _ hdsx,
    byteOfEq _ hocc, le8Roundtrip _ hack, respPackLow _ hcmd⟩

/-! ## Claim C9 — byte 0 packing -/

/-- A concrete well-formed Alert Notification field set. -/
def sampleNotificationFields : PGN126983Fields :=
  { AlertType := 5, AlertCategory := 1, AlertSystem := 1,
    AlertSubSystem := 1, AlertID := 10, SourceNetworkID := 3,
    DataSourceInstance := 1, DataSourceIndex := 1, AlertOccurence := 0,
    AcknowledgeNetworkID := 7, TriggerCondition := 1,
    ThresholdStatus := 0, AlertPriority := 100, AlertState := 1,
    TemporarySilenceStatus := 0, AcknowledgeStatus := 0,
    EscalationStatus := 0, TemporarySilenceSupport := 1,
    AcknowledgeSupport := 1, EscalationSupport := 0 }

/-- A concrete Alert Text field set whose description is the ten bytes of
"Temperatur" and whose location is the six bytes of "Engine". -/
def sampleTextFields : PGN126985Fields :=
  { AlertType := 5, AlertCategory := 1, AlertSystem := 1,
    AlertSubSystem := 1, AlertID := 10, SourceNetworkID := 3,
    DataSourceInstance := 1, DataSourceIndex := 1, AlertOccurence := 0,
    AlertLanguage := 0,
    AlertTextDescription := [84, 101, 109, 112, 101, 114, 97, 116, 117, 114],
    AlertLocationTextDescription := [69, 110, 103, 105, 110, 101] }

/-- C9: byte 0 of the encoded Alert Notification (PGN 126983) and Alert
Text (PGN 126985) messages equals `(alert_category << 4) | alert_type`,
type in the low nibble and category in the next nibble; in particular
type Warning (5) with category Technical (1) encodes first byte 0x15. -/
theorem notificationByte0PacksCategoryType (f : PGN126983Fields)
    (g : PGN126985Fields) (h1 : f.AlertType < 16)
    (h2 : f.AlertCategory < 16) (h3 : g.AlertType < 16)
    (h4 : g.AlertCategory < 16) :
    (SetN2kPGN126983 f).Data.headD 0 =
      (f.AlertCategory <<< 4) ||| f.AlertType ∧
    (SetN2kPGN126985 g).Data.headD 0 =
      (g.AlertCategory <<< 4) ||| g.AlertType ∧
    (SetN2kPGN126983 { f with
        AlertType := N2kts_AlertTypeWarning
        AlertCategory := N2kts_AlertCategoryTechnical }).Data.headD 0 =
      0x15 := by
  refine ⟨?_, ?_, ?_⟩
  · exact nibblePackByte _ h2 _ h1
  · exact nibblePackByte _ h4 _ h3
  · show byteOf ((N2kts_AlertCategoryTechnical <<< 4) |||
      N2kts_AlertTypeWarning) = 0x15
    decide

/-- Witness for C9, at the sample field sets. -/
theorem notificationByte0PacksCategoryType_witness :
    sampleNotificationFields.AlertType < 16 ∧
    sampleNotificationFields.AlertCategory < 16 ∧
    sampleTextFields.AlertType < 16 ∧
    sampleTextFields.AlertCategory < 16 ∧
    ((SetN2kPGN126983 sampleNotificationFields).Data.headD 0 =
      (sampleNotificationFields.AlertCategory <<< 4) |||
        sampleNotificationFields.AlertType ∧
     (SetN2kPGN126985 sampleTextFields).Data.headD 0 =
      (sampleTextFields.AlertCategory <<< 4) |||
        sampleTextFields.AlertType ∧
     (SetN2kPGN126983 { sampleNotificationFields with
        AlertType := N2kts_AlertTypeWarning
        AlertCategory := N2kts_AlertCategoryTechnical }).Data.headD 0 =
      0x15) :=
  ⟨by decide, by decide, by decide, by decide,
   notificationByte0PacksCategoryType sampleNotificationFields
     sampleTextFields (by decide) (by decide) (by decide) (by decide)⟩

/-! ## Claim C5 — occurrence-threshold normalization -/

/-- C5 counterexample: calling `SetOccurenceThreshold` with 255 stores
255 — not 1 — leaving the threshold above 250, contrary to the claim
that the setter normalizes 255 to 1 and never leaves a value above 250. -/
theorem setOccurenceThreshold255Counterexample :
    (SetOccurenceThreshold sampleAlert 255).OccurenceThreshold = 255 ∧
    ¬ (SetOccurenceThreshold sampleAlert 255).OccurenceThreshold ≤ 250 ∧
    (SetOccurenceThreshold sampleAlert 255).OccurenceThreshold ≠ 1 := by
  decide

/-- C5 (amended): `SetOccurenceThreshold` normalizes only 0 to 1 and
stores any nonzero (mod-256) argument unchanged — in particular 255 stays
255; the constructor, by contrast, normalizes both 0 and values above
250 to 1, so a freshly constructed alert always has its occurrence
threshold in [1, 250]. -/
theorem occurenceThresholdNormalization :
    (∀ a : tN2kAlert, (SetOccurenceThreshold a 0).OccurenceThreshold = 1)
    ∧ (∀ a : tN2kAlert, ∀ t : Nat, t % 256 ≠ 0 →
        (SetOccurenceThreshold a t).OccurenceThreshold = t % 256)
    ∧ (∀ ty cat id trig prio tss acks ess occT us uss uan ul udi udx udn
         um uf ulv : Nat, ∀ ud ulo : List Nat,
        1 ≤ (tN2kAlertConstruct ty cat id trig prio tss acks ess occT us
          uss uan ul ud ulo udi udx udn um uf ulv).OccurenceThreshold ∧
        (tN2kAlertConstruct ty cat id trig prio tss acks ess occT us
          uss uan ul ud ulo udi udx udn um uf ulv).OccurenceThreshold
          ≤ 250) := by
  refine ⟨fun a => rfl, fun a t ht => ?_, ?_⟩
  · simp [SetOccurenceThreshold, ht]
  · intro ty cat id trig prio tss acks ess occT us uss uan ul udi udx udn
      um uf ulv ud ulo
    simp only [tN2kAlertConstruct]
    split_ifs <;> omega

/-- Witness for C5's amended theorem, at argument 255. -/
theorem occurenceThresholdNormalization_witness :
    (255 : Nat) % 256 ≠ 0 ∧
    (SetOccurenceThreshold sampleAlert 255).OccurenceThreshold =
      255 % 256 :=
  ⟨by decide, occurenceThresholdNormalization.2.1 sampleAlert 255
    (by decide)⟩

/-! ## Field-preservation lemmas for the transition functions -/

/-- The Exceed transition on an alert already in the Exceeded condition
with the acknowledge flag set resolves to the Acknowledged state. -/
theorem SetAlertExceeded_exceeded_ack (b : tN2kAlert)
    (hb1 : b.ThresholdStatus = N2kts_AlertThresholdStatusExceeded)
    (hb2 : b.AcknowledgeStatus = N2kts_AlertYes) :
    (SetAlertExceeded b).AlertState = N2kts_AlertStateAcknowledged ∧
    (SetAlertExceeded b).ThresholdStatus =
      N2kts_AlertThresholdStatusAcknowledged := by
  by_cases hocc : b.Occurence > 250 <;>
  by_cases hsil : b.TemporarySilenceStatus = 1 <;>
    simp [SetAlertExceeded, hb1, hb2, hocc, hsil,
      N2kts_AlertThresholdStatusExceeded, N2kts_AlertThresholdStatusNormal,
      N2kts_AlertYes, N2kts_AlertStateAcknowledged,
      N2kts_AlertThresholdStatusAcknowledged]


theorem SetAlertExceeded_preserves (b : tN2kAlert) :
    (SetAlertExceeded b).SilenceDeadline = b.SilenceDeadline ∧
    (SetAlertExceeded b).TemporarySilenceDelay = b.TemporarySilenceDelay ∧
    (SetAlertExceeded b).ThresholdMethod = b.ThresholdMethod ∧
    (SetAlertExceeded b).ThresholdLevel = b.ThresholdLevel ∧
    (SetAlertExceeded b).OccurenceThreshold = b.OccurenceThreshold ∧
    (SetAlertExceeded b).AcknowledgeStatus = b.AcknowledgeStatus ∧
    (SetAlertExceeded b).TemporarySilenceStatus = b.TemporarySilenceStatus ∧
    (SetAlertExceeded b).TemporarySilenceSupport =
      b.TemporarySilenceSupport ∧
    (SetAlertExceeded b).AcknowledgeSupport = b.AcknowledgeSupport ∧
    (SetAlertExceeded b).EscalationSupport = b.EscalationSupport := by
  simp only [SetAlertExceeded]
  split_ifs <;>
    exact ⟨rfl, rfl, rfl, rfl, rfl, rfl, rfl, rfl, rfl, rfl⟩

theorem ResetAlert_preserves (b : tN2kAlert) :
    (ResetAlert b).SilenceDeadline = b.SilenceDeadline ∧
    (ResetAlert b).TemporarySilenceDelay = b.TemporarySilenceDelay ∧
    (ResetAlert b).ThresholdMethod = b.ThresholdMethod ∧
    (ResetAlert b).ThresholdLevel = b.ThresholdLevel ∧
    (ResetAlert b).OccurenceThreshold = b.OccurenceThreshold ∧
    (ResetAlert b).TemporarySilenceStatus = b.TemporarySilenceStatus ∧
    (ResetAlert b).TemporarySilenceSupport = b.TemporarySilenceSupport ∧
    (ResetAlert b).AcknowledgeSupport = b.AcknowledgeSupport ∧
    (ResetAlert b).EscalationSupport = b.EscalationSupport :=
  ⟨rfl, rfl, rfl, rfl, rfl, rfl, rfl, rfl, rfl⟩

theorem TestAlertThreshold_preserves (b : tN2kAlert) (now v : Nat) :
    (TestAlertThreshold b now v).1.SilenceDeadline = b.SilenceDeadline ∧
    (TestAlertThreshold b now v).1.TemporarySilenceDelay =
      b.TemporarySilenceDelay ∧
    (TestAlertThreshold b now v).1.ThresholdMethod = b.ThresholdMethod ∧
    (TestAlertThreshold b now v).1.ThresholdLevel = b.ThresholdLevel ∧
    (TestAlertThreshold b now v).1.OccurenceThreshold =
      b.OccurenceThreshold ∧
    (TestAlertThreshold b now v).1.TemporarySilenceSupport =
      b.TemporarySilenceSupport ∧
    (TestAlertThreshold b now v).1.AcknowledgeSupport =
      b.AcknowledgeSupport ∧
    (TestAlertThreshold b now v).1.EscalationSupport =
      b.EscalationSupport := by
  simp only [TestAlertThreshold]
  split_ifs <;>
    simp [SetAlertExceeded_preserves, ResetAlert_preserves]

/-! ## Claim C4 — acknowledge dominates silence -/

/-- C4: for an alert in the Exceeded condition with both the temporary
silence status and the acknowledge status set, an exceeding sample drives
the lifecycle state to Acknowledged (not Silenced) and the threshold
status to Acknowledged. -/
theorem acknowledgeDominatesSilence (a : tN2kAlert) (now v : Nat)
    (hm : a.ThresholdMethod = N2kts_AlertThresholddMethodGreater)
    (hv : a.ThresholdLevel < v)
    (hts : a.ThresholdStatus = N2kts_AlertThresholdStatusExceeded)
    (hsil : a.TemporarySilenceStatus = N2kts_AlertYes)
    (hack : a.AcknowledgeStatus = N2kts_AlertYes) :
    (TestAlertThreshold a now v).1.AlertState =
      N2kts_AlertStateAcknowledged ∧
    (TestAlertThreshold a now v).1.ThresholdStatus =
      N2kts_AlertThresholdStatusAcknowledged := by
  have hbr : (TestAlertThreshold a now v).1 =
      (if (SetAlertExceeded a).SilenceDeadline ≤ now then
        { SetAlertExceeded a with TemporarySilenceStatus := N2kts_AlertNo }
      else SetAlertExceeded a) := by
    simp [TestAlertThreshold, hm, hv]
  have hax := SetAlertExceeded_exceeded_ack a hts hack
  rw [hbr]
  split_ifs <;> exact hax

/-- The sample alert driven into the Exceeded condition with silence and
acknowledge both set. -/
def exceededAlert : tN2kAlert :=
  { sampleAlert with ThresholdStatus := 1, TemporarySilenceStatus := 1, AcknowledgeStatus := 1 }

/-- Witness for C4, at `exceededAlert` and sample 65 against level 60. -/
theorem acknowledgeDominatesSilence_witness :
    exceededAlert.ThresholdMethod = N2kts_AlertThresholddMethodGreater ∧
    exceededAlert.ThresholdLevel < 65 ∧
    exceededAlert.ThresholdStatus = N2kts_AlertThresholdStatusExceeded ∧
    exceededAlert.TemporarySilenceStatus = N2kts_AlertYes ∧
    exceededAlert.AcknowledgeStatus = N2kts_AlertYes ∧
    ((TestAlertThreshold exceededAlert 0 65).1.AlertState =
      N2kts_AlertStateAcknowledged ∧
     (TestAlertThreshold exceededAlert 0 65).1.ThresholdStatus =
      N2kts_AlertThresholdStatusAcknowledged) :=
  ⟨by decide, by decide, by decide, by decide, by decide,
   acknowledgeDominatesSilence exceededAlert 0 65 (by decide) (by decide)
     (by decide) (by decide) (by decide)⟩

/-! ## Claim C7 — decode mismatch signaling (see the missing `return` in
the `ParseN2kAlertResponse` alias, `N2kAlertMessages.h`) -/

/-- C7: evaluating the response path at a wrong-PGN input: an Alert
Notification message (PGN 126983) presented to the response decoder is
refused with `none`, and `ParseAlertResponse` — under the intended
(result-propagating) reading of the `ParseN2kAlertResponse` alias —
returns false leaving the alert unchanged, while a response-tagged
message is consumed with true. -/
theorem responseWrongPgnSignaledFalse :
    ParseN2kPGN126984 (SetN2kAlert sampleAlert) = none ∧
    ParseAlertResponse sampleAlert 0 (SetN2kAlert sampleAlert) =
      (sampleAlert, false) ∧
    (ParseAlertResponse sampleAlert 0
      (SetN2kPGN126984 sampleResponseFields)).2 = true := by
  decide

/-! ## Claim C6 — responses for other alerts are consumed untouched -/

/-- C6: a decodable Alert Response whose system or subsystem differs from
this alert's own is consumed (returns true) with no state change at all. -/
theorem responseOtherAlertNoChange (a : tN2kAlert) (now : Nat)
    (msg : tN2kMsg) (f : PGN126984Fields)
    (hdec : ParseN2kPGN126984 msg = some f)
    (hmm : f.AlertSystem ≠ a.AlertSystem ∨
      f.AlertSubSystem ≠ a.AlertSubSystem) :
    ParseAlertResponse a now msg = (a, true) := by
  unfold ParseAlertResponse
  rw [hdec]
  rcases hmm with h | h <;> simp [h]

/-- A response field set addressed to system 9, which is not
`sampleAlert`'s system 1. -/
def otherSystemResponseFields : PGN126984Fields :=
  { sampleResponseFields with AlertSystem := 9 }

/-- Witness for C6, at a concrete mismatching response message. -/
theorem responseOtherAlertNoChange_witness :
    ParseN2kPGN126984 (SetN2kPGN126984 otherSystemResponseFields) =
      some otherSystemResponseFields ∧
    (otherSystemResponseFields.AlertSystem ≠ sampleAlert.AlertSystem ∨
     otherSystemResponseFields.AlertSubSystem ≠
       sampleAlert.AlertSubSystem) ∧
    ParseAlertResponse sampleAlert 0
      (SetN2kPGN126984 otherSystemResponseFields) = (sampleAlert, true) :=
  ⟨by decide, by decide,
   responseOtherAlertNoChange sampleAlert 0
     (SetN2kPGN126984 otherSystemResponseFields) otherSystemResponseFields
     (by decide) (by decide)⟩

/-! ## Claim C8 — temporary silence arming and auto-expiry -/

/-- C8: consuming a matching TemporarySilence response sets the silence
status and arms the timer for `TemporarySilenceDelay` from now; test
calls never move the armed deadline, and any test call at or past the
deadline clears the silence status, whatever the comparison outcome. -/
theorem temporarySilenceArmsAndExpires (a : tN2kAlert) (t0 : Nat)
    (msg : tN2kMsg) (f : PGN126984Fields)
    (hdec : ParseN2kPGN126984 msg = some f)
    (hsys : f.AlertSystem = a.AlertSystem)
    (hsub : f.AlertSubSystem = a.AlertSubSystem)
    (hcmd : f.ResponseCommand = N2kts_AlertResponseTemporarySilence) :
    (ParseAlertResponse a t0 msg).1.TemporarySilenceStatus =
      N2kts_AlertYes ∧
    (ParseAlertResponse a t0 msg).1.SilenceDeadline =
      t0 + a.TemporarySilenceDelay ∧
    (∀ b : tN2kAlert, ∀ now v : Nat,
      (TestAlertThreshold b now v).1.SilenceDeadline =
        b.SilenceDeadline) ∧
    (∀ b : tN2kAlert, ∀ now v : Nat, b.SilenceDeadline ≤ now →
      (TestAlertThreshold b now v).1.TemporarySilenceStatus =
        N2kts_AlertNo) := by
  have harm : (ParseAlertResponse a t0 msg).1 =
      { a with
        TemporarySilenceStatus := N2kts_AlertYes
        SilenceDeadline := t0 + a.TemporarySilenceDelay } := by
    unfold ParseAlertResponse
    rw [hdec]
    simp [hsys, hsub, hcmd, N2kts_AlertResponseTemporarySilence,
      N2kts_AlertResponseAcknowledge]
  refine ⟨by rw [harm], by rw [harm],
    fun b now v => (TestAlertThreshold_preserves b now v).1, ?_⟩
  intro b now v hnow
  simp only [TestAlertThreshold]
  split_ifs <;> try rfl
  all_goals exfalso
  all_goals simp_all [(SetAlertExceeded_preserves b).1,
    (ResetAlert_preserves b).1]

/-- The matching TemporarySilence response field set for `sampleAlert`. -/
def silenceResponseFields : PGN126984Fields :=
  { sampleResponseFields with ResponseCommand := 1 }

/-- Witness for C8, at a concrete matching TemporarySilence response. -/
theorem temporarySilenceArmsAndExpires_witness :
    ParseN2kPGN126984 (SetN2kPGN126984 silenceResponseFields) =
      some silenceResponseFields ∧
    silenceResponseFields.AlertSystem = sampleAlert.AlertSystem ∧
    silenceResponseFields.AlertSubSystem = sampleAlert.AlertSubSystem ∧
    silenceResponseFields.ResponseCommand =
      N2kts_AlertResponseTemporarySilence ∧
    ((ParseAlertResponse sampleAlert 5
        (SetN2kPGN126984 silenceResponseFields)).1.TemporarySilenceStatus =
      N2kts_AlertYes ∧
     (ParseAlertResponse sampleAlert 5
        (SetN2kPGN126984 silenceResponseFields)).1.SilenceDeadline =
      5 + sampleAlert.TemporarySilenceDelay ∧
     (∀ b : tN2kAlert, ∀ now v : Nat,
       (TestAlertThreshold b now v).1.SilenceDeadline =
         b.SilenceDeadline) ∧
     (∀ b : tN2kAlert, ∀ now v : Nat, b.SilenceDeadline ≤ now →
       (TestAlertThreshold b now v).1.TemporarySilenceStatus =
         N2kts_AlertNo)) :=
  ⟨by decide, by decide, by decide, by decide,
   temporarySilenceArmsAndExpires sampleAlert 5
     (SetN2kPGN126984 silenceResponseFields) silenceResponseFields
     (by decide) (by decide) (by decide) (by decide)⟩

/-! ## Claim C10 — support flags never gate and are never changed -/

/-- C10: a matching Acknowledge (resp. TemporarySilence) response sets the
acknowledge (resp. silence) status with no condition on the corresponding
support flag, and no public operation ever changes any of the three
support flags fixed at construction. -/
theorem supportFlagsNeverGate (a : tN2kAlert) (now : Nat) (msg : tN2kMsg)
    (f : PGN126984Fields) (hdec : ParseN2kPGN126984 msg = some f)
    (hsys : f.AlertSystem = a.AlertSystem)
    (hsub : f.AlertSubSystem = a.AlertSubSystem) :
    (f.ResponseCommand = N2kts_AlertResponseAcknowledge →
      (ParseAlertResponse a now msg).1.AcknowledgeStatus =
        N2kts_AlertYes) ∧
    (f.ResponseCommand = N2kts_AlertResponseTemporarySilence →
      (ParseAlertResponse a now msg).1.TemporarySilenceStatus =
        N2kts_AlertYes) ∧
    (∀ op : tN2kOp, ∀ b : tN2kAlert,
      (tN2kStep op b).TemporarySilenceSupport =
        b.TemporarySilenceSupport ∧
      (tN2kStep op b).AcknowledgeSupport = b.AcknowledgeSupport ∧
      (tN2kStep op b).EscalationSupport = b.EscalationSupport) := by
  refine ⟨?_, ?_, ?_⟩
  · intro hcmd
    unfold ParseAlertResponse
    rw [hdec]
    simp [hsys, hsub, hcmd, N2kts_AlertResponseAcknowledge]
  · intro hcmd
    unfold ParseAlertResponse
    rw [hdec]
    simp [hsys, hsub, hcmd, N2kts_AlertResponseTemporarySilence,
      N2kts_AlertResponseAcknowledge]
  · intro op b
    cases op with
    | testAlertThreshold now2 v =>
        exact ⟨(TestAlertThreshold_preserves b now2 v).2.2.2.2.2.1,
          (TestAlertThreshold_preserves b now2 v).2.2.2.2.2.2.1,
          (TestAlertThreshold_preserves b now2 v).2.2.2.2.2.2.2⟩
    | parseAlertResponse now2 m =>
        simp only [tN2kStep, ParseAlertResponse]
        cases ParseN2kPGN126984 m with
        | none => exact ⟨rfl, rfl, rfl⟩
        | some g =>
            simp only []
            split_ifs <;> exact ⟨rfl, rfl, rfl⟩
    | setAlertSystem sys subsys ackNid lang desc loc =>
        exact ⟨rfl, rfl, rfl⟩
    | setAlertDataSource inst idx nid => exact ⟨rfl, rfl, rfl⟩
    | setAlertThreshold method format level => exact ⟨rfl, rfl, rfl⟩
    | setTemporarySilenceTime seconds => exact ⟨rfl, rfl, rfl⟩
    | setOccurenceThreshold t =>
        simp only [tN2kStep, SetOccurenceThreshold]
        split_ifs <;> exact ⟨rfl, rfl, rfl⟩

/-- The sample alert with its acknowledge and silence support both
withdrawn, to exhibit the ungated response handling. -/
def unsupportedAlert : tN2kAlert :=
  { sampleAlert with TemporarySilenceSupport := 0, AcknowledgeSupport := 0 }

/-- Witness for C10: even with both support flags No, a matching
Acknowledge response sets the acknowledge status. -/
theorem supportFlagsNeverGate_witness :
    ParseN2kPGN126984 (SetN2kPGN126984 sampleResponseFields) =
      some sampleResponseFields ∧
    sampleResponseFields.AlertSystem = unsupportedAlert.AlertSystem ∧
    sampleResponseFields.AlertSubSystem = unsupportedAlert.AlertSubSystem ∧
    unsupportedAlert.AcknowledgeSupport = N2kts_AlertNo ∧
    sampleResponseFields.ResponseCommand =
      N2kts_AlertResponseAcknowledge ∧
    (ParseAlertResponse unsupportedAlert 0
      (SetN2kPGN126984 sampleResponseFields)).1.AcknowledgeStatus =
      N2kts_AlertYes :=
  ⟨by decide, by decide, by decide, by decide, by decide,
   (supportFlagsNeverGate unsupportedAlert 0
     (SetN2kPGN126984 sampleResponseFields) sampleResponseFields
     (by decide) (by decide) (by decide)).1 (by decide)⟩

/-! ## Claim C2 — the Greater threshold comparison -/

/-- Repeated `TestAlertThreshold` calls with a fixed sample `v`, one call
per clock reading in the list. -/
def runTests (a : tN2kAlert) (v : Nat) : List Nat → tN2kAlert
  | [] => a
  | t :: rest => runTests (TestAlertThreshold a t v).1 v rest

/-- One exceeding Greater-sample on a Normal, unacknowledged alert whose
incremented counter stays below the occurrence threshold: the status
stays Normal and the counter advances by one. -/
theorem testStepGreaterBelow (b : tN2kAlert) (t v : Nat)
    (hm : b.ThresholdMethod = N2kts_AlertThresholddMethodGreater)
    (hv : b.ThresholdLevel < v)
    (hack : b.AcknowledgeStatus = N2kts_AlertNo)
    (hts : b.ThresholdStatus = N2kts_AlertThresholdStatusNormal)
    (hT : b.OccurenceThreshold ≤ 250)
    (hocc : b.Occurence + 1 < b.OccurenceThreshold) :
    (TestAlertThreshold b t v).1.ThresholdStatus =
      N2kts_AlertThresholdStatusNormal ∧
    (TestAlertThreshold b t v).1.Occurence = b.Occurence + 1 ∧
    (TestAlertThreshold b t v).1.AcknowledgeStatus = N2kts_AlertNo := by
  have hgd : ¬ b.Occurence > 250 := by omega
  have hmod : (b.Occurence + 1) % 256 = b.Occurence + 1 := by omega
  have hcond : ¬ b.OccurenceThreshold ≤ b.Occurence + 1 := by omega
  by_cases ht : b.SilenceDeadline ≤ t <;>
    simp [TestAlertThreshold, SetAlertExceeded, hm, hv, hack, hts, hgd,
      hmod, hcond, ht, N2kts_AlertThresholddMethodGreater, N2kts_AlertThresholdMethodLower,
      N2kts_AlertThresholdMethodEqual, N2kts_AlertThresholdStatusNormal,
      N2kts_AlertThresholdStatusExceeded,
      N2kts_AlertThresholdStatusAcknowledged, N2kts_AlertStateNormal,
      N2kts_AlertStateActive, N2kts_AlertStateSilenced,
      N2kts_AlertStateAcknowledged, N2kts_AlertNo, N2kts_AlertYes]

/-- One exceeding Greater-sample on a Normal, unacknowledged alert whose
incremented counter reaches the occurrence threshold: the status becomes
Exceeded. -/
theorem testStepGreaterReach (b : tN2kAlert) (t v : Nat)
    (hm : b.ThresholdMethod = N2kts_AlertThresholddMethodGreater)
    (hv : b.ThresholdLevel < v)
    (hack : b.AcknowledgeStatus = N2kts_AlertNo)
    (hts : b.ThresholdStatus = N2kts_AlertThresholdStatusNormal)
    (hT : b.OccurenceThreshold ≤ 250)
    (hlow : b.Occurence < b.OccurenceThreshold)
    (hreach : b.OccurenceThreshold ≤ b.Occurence + 1) :
    (TestAlertThreshold b t v).1.ThresholdStatus =
      N2kts_AlertThresholdStatusExceeded ∧
    (TestAlertThreshold b t v).1.Occurence = b.Occurence + 1 ∧
    (TestAlertThreshold b t v).1.AcknowledgeStatus = N2kts_AlertNo := by
  have hgd : ¬ b.Occurence > 250 := by omega
  have hmod : (b.Occurence + 1) % 256 = b.Occurence + 1 := by omega
  by_cases hsil : b.TemporarySilenceStatus = 1 <;>
  by_cases ht : b.SilenceDeadline ≤ t <;>
    simp [TestAlertThreshold, SetAlertExceeded, hm, hv, hack, hts, hgd,
      hmod, hreach, hsil, ht, N2kts_AlertThresholddMethodGreater, N2kts_AlertThresholdMethodLower,
      N2kts_AlertThresholdMethodEqual, N2kts_AlertThresholdStatusNormal,
      N2kts_AlertThresholdStatusExceeded,
      N2kts_AlertThresholdStatusAcknowledged, N2kts_AlertStateNormal,
      N2kts_AlertStateActive, N2kts_AlertStateSilenced,
      N2kts_AlertStateAcknowledged, N2kts_AlertNo, N2kts_AlertYes]

/-- One exceeding Greater-sample on an already-Exceeded, unacknowledged
alert: the status stays Exceeded. -/
theorem testStepGreaterStay (b : tN2kAlert) (t v : Nat)
    (hm : b.ThresholdMethod = N2kts_AlertThresholddMethodGreater)
    (hv : b.ThresholdLevel < v)
    (hack : b.AcknowledgeStatus = N2kts_AlertNo)
    (hts : b.ThresholdStatus = N2kts_AlertThresholdStatusExceeded) :
    (TestAlertThreshold b t v).1.ThresholdStatus =
      N2kts_AlertThresholdStatusExceeded ∧
    (TestAlertThreshold b t v).1.AcknowledgeStatus = N2kts_AlertNo := by
  by_cases hocc : b.Occurence > 250 <;>
  by_cases hsil : b.TemporarySilenceStatus = 1 <;>
  by_cases ht : b.SilenceDeadline ≤ t <;>
    simp [TestAlertThreshold, SetAlertExceeded, hm, hv, hack, hts, hocc,
      hsil, ht, N2kts_AlertThresholddMethodGreater, N2kts_AlertThresholdMethodLower,
      N2kts_AlertThresholdMethodEqual, N2kts_AlertThresholdStatusNormal,
      N2kts_AlertThresholdStatusExceeded,
      N2kts_AlertThresholdStatusAcknowledged, N2kts_AlertStateNormal,
      N2kts_AlertStateActive, N2kts_AlertStateSilenced,
      N2kts_AlertStateAcknowledged, N2kts_AlertNo, N2kts_AlertYes]

/-- Invariant of repeated exceeding Greater-samples: while the number of
accumulated detections is below the occurrence threshold the alert is
Normal with the counter equal to that number; from the threshold on it is
Exceeded. -/
theorem runTestsGreaterInvariant (v : Nat) (times : List Nat) :
    ∀ b : tN2kAlert, ∀ k : Nat,
      b.ThresholdMethod = N2kts_AlertThresholddMethodGreater →
      b.ThresholdLevel < v →
      b.AcknowledgeStatus = N2kts_AlertNo →
      1 ≤ b.OccurenceThreshold → b.OccurenceThreshold ≤ 250 →
      ((k < b.OccurenceThreshold ∧
          b.ThresholdStatus = N2kts_AlertThresholdStatusNormal ∧
          b.Occurence = k) ∨
       (b.OccurenceThreshold ≤ k ∧
          b.ThresholdStatus = N2kts_AlertThresholdStatusExceeded)) →
      ((k + times.length < b.OccurenceThreshold ∧
          (runTests b v times).ThresholdStatus =
            N2kts_AlertThresholdStatusNormal ∧
          (runTests b v times).Occurence = k + times.length) ∨
       (b.OccurenceThreshold ≤ k + times.length ∧
          (runTests b v times).ThresholdStatus =
            N2kts_AlertThresholdStatusExceeded)) := by
  induction times with
  | nil =>
      intro b k hm hv hack h1 h250 hinv
      simpa using hinv
  | cons t rest ih =>
      intro b k hm hv hack h1 h250 hinv
      simp only [runTests, List.length_cons]
      obtain ⟨hdl, hdelay, hm', hl', hT', hp1, hp2, hp3⟩ :=
        TestAlertThreshold_preserves b t v
      rcases hinv with ⟨hk, hts, hocc⟩ | ⟨hk, hts⟩
      · by_cases hnext : k + 1 < b.OccurenceThreshold
        · obtain ⟨hts', hocc', hack'⟩ :=
            testStepGreaterBelow b t v hm hv hack hts h250 (by omega)
          have hres := ih (TestAlertThreshold b t v).1 (k + 1)
            (hm'.trans hm) (by omega) hack' (by omega) (by omega)
            (Or.inl ⟨by omega, hts', by omega⟩)
          rcases hres with ⟨ha, hb2, hc⟩ | ⟨ha, hb2⟩
          · exact Or.inl ⟨by omega, hb2, by omega⟩
          · exact Or.inr ⟨by omega, hb2⟩
        · obtain ⟨hts', hocc', hack'⟩ :=
            testStepGreaterReach b t v hm hv hack hts h250 (by omega)
              (by omega)
          have hres := ih (TestAlertThreshold b t v).1 (k + 1)
            (hm'.trans hm) (by omega) hack' (by omega) (by omega)
            (Or.inr ⟨by omega, hts'⟩)
          rcases hres with ⟨ha, hb2, hc⟩ | ⟨ha, hb2⟩
          · exact Or.inl ⟨by omega, hb2, by omega⟩
          · exact Or.inr ⟨by omega, hb2⟩
      · obtain ⟨hts', hack'⟩ := testStepGreaterStay b t v hm hv hack hts
        have hres := ih (TestAlertThreshold b t v).1 (k + 1)
          (hm'.trans hm) (by omega) hack' (by omega) (by omega)
          (Or.inr ⟨by omega, hts'⟩)
        rcases hres with ⟨ha, hb2, hc⟩ | ⟨ha, hb2⟩
        · exact Or.inl ⟨by omega, hb2, by omega⟩
        · exact Or.inr ⟨by omega, hb2⟩

/-- C2: with method Greater at level L and occurrence threshold T in
[1, 250], starting from the reset condition, a run of consecutive
exceeding samples drives the threshold status to Exceeded exactly when at
least T detections have accumulated — and this happens only for samples
above L: any sample at or below L resets the status, state, acknowledge
flag and counter in that very call. -/
theorem testAlertThresholdGreaterIff (a : tN2kAlert) (L T v : Nat)
    (hm : a.ThresholdMethod = N2kts_AlertThresholddMethodGreater)
    (hL : a.ThresholdLevel = L) (hT : a.OccurenceThreshold = T)
    (hT1 : 1 ≤ T) (hT250 : T ≤ 250) :
    ((a.ThresholdStatus = N2kts_AlertThresholdStatusNormal ∧
      a.Occurence = 0 ∧ a.AcknowledgeStatus = N2kts_AlertNo) →
      L < v →
      ∀ times : List Nat,
        ((runTests a v times).ThresholdStatus =
            N2kts_AlertThresholdStatusExceeded ↔ T ≤ times.length)) ∧
    (v ≤ L →
      ∀ now : Nat,
        (TestAlertThreshold a now v).1.ThresholdStatus =
          N2kts_AlertThresholdStatusNormal ∧
        (TestAlertThreshold a now v).1.AlertState =
          N2kts_AlertStateNormal ∧
        (TestAlertThreshold a now v).1.AcknowledgeStatus =
          N2kts_AlertNo ∧
        (TestAlertThreshold a now v).1.Occurence = 0) := by
  constructor
  · rintro ⟨hts, hocc, hack⟩ hv times
    have hrun := runTestsGreaterInvariant v times a 0 hm (by omega) hack
      (by omega) (by omega) (Or.inl ⟨by omega, hts, hocc⟩)
    rcases hrun with ⟨h1, h2, h3⟩ | ⟨h1, h2⟩
    · simp only [N2kts_AlertThresholdStatusNormal,
        N2kts_AlertThresholdStatusExceeded] at h2 ⊢
      constructor
      · intro hEx; omega
      · intro hlen; omega
    · constructor
      · intro hEx; omega
      · intro hlen; exact h2
  · intro hvle now
    have hng : ¬ L < v := by omega
    by_cases ht : a.SilenceDeadline ≤ now <;>
      simp [TestAlertThreshold, ResetAlert, hm, hL, hng, ht,
        N2kts_AlertThresholddMethodGreater, N2kts_AlertThresholdMethodLower,
        N2kts_AlertThresholdMethodEqual, N2kts_AlertThresholdStatusNormal,
        N2kts_AlertStateNormal, N2kts_AlertNo]

/-- Witness for C2: `sampleAlert` (Greater at 60, occurrence threshold 1)
fires on one sample of 65 and resets on a sample of 55. -/
theorem testAlertThresholdGreaterIff_witness :
    sampleAlert.ThresholdMethod = N2kts_AlertThresholddMethodGreater ∧
    sampleAlert.ThresholdLevel = 60 ∧
    sampleAlert.OccurenceThreshold = 1 ∧
    (1 : Nat) ≤ 1 ∧ (1 : Nat) ≤ 250 ∧
    ((runTests sampleAlert 65 [0]).ThresholdStatus =
        N2kts_AlertThresholdStatusExceeded ↔ (1 : Nat) ≤ [(0 : Nat)].length) ∧
    ((TestAlertThreshold sampleAlert 0 55).1.ThresholdStatus =
        N2kts_AlertThresholdStatusNormal ∧
      (TestAlertThreshold sampleAlert 0 55).1.AlertState =
        N2kts_AlertStateNormal ∧
      (TestAlertThreshold sampleAlert 0 55).1.AcknowledgeStatus =
        N2kts_AlertNo ∧
      (TestAlertThreshold sampleAlert 0 55).1.Occurence = 0) :=
  ⟨by decide, by decide, by decide, by decide, by decide,
   (testAlertThresholdGreaterIff sampleAlert 60 1 65 (by decide)
     (by decide) (by decide) (by decide) (by decide)).1
     ⟨by decide, by decide, by decide⟩ (by decide) [0],
   (testAlertThresholdGreaterIff sampleAlert 60 1 55 (by decide)
     (by decide) (by decide) (by decide) (by decide)).2 (by decide) 0⟩
/-! ## Claim C3 — Exceeded is entered only at the occurrence threshold -/

set_option maxHeartbeats 1000000 in
/-- The Exceed transition moves the threshold status into Exceeded only
with the occurrence counter at or above the occurrence threshold. -/
theorem SetAlertExceeded_into_exceeded (b : tN2kAlert)
    (hpre : b.ThresholdStatus ≠ N2kts_AlertThresholdStatusExceeded)
    (hpost : (SetAlertExceeded b).ThresholdStatus =
      N2kts_AlertThresholdStatusExceeded) :
    (SetAlertExceeded b).OccurenceThreshold ≤
      (SetAlertExceeded b).Occurence := by
  by_cases hts0 : b.ThresholdStatus = 0
  · by_cases hocc : b.Occurence > 250
    · by_cases hge : b.OccurenceThreshold ≤ 1 <;>
      by_cases hackb : b.AcknowledgeStatus = 1 <;>
        simp [SetAlertExceeded, apply_ite, ite_self, hts0, hocc, hge,
          hackb, N2kts_AlertThresholdStatusNormal,
          N2kts_AlertThresholdStatusExceeded,
          N2kts_AlertThresholdStatusAcknowledged,
          N2kts_AlertYes] at hpost ⊢
    · by_cases hge : b.OccurenceThreshold ≤ (b.Occurence + 1) % 256 <;>
      by_cases hackb : b.AcknowledgeStatus = 1 <;>
        simp [SetAlertExceeded, apply_ite, ite_self, hts0, hocc, hge,
          hackb, N2kts_AlertThresholdStatusNormal,
          N2kts_AlertThresholdStatusExceeded,
          N2kts_AlertThresholdStatusAcknowledged,
          N2kts_AlertYes] at hpost ⊢
  · have hpre1 : ¬ b.ThresholdStatus = 1 := by
      simpa [N2kts_AlertThresholdStatusExceeded] using hpre
    by_cases hocc : b.Occurence > 250 <;>
      simp [SetAlertExceeded, hts0, hocc, hpre1,
        N2kts_AlertThresholdStatusNormal,
        N2kts_AlertThresholdStatusExceeded,
        N2kts_AlertThresholdStatusAcknowledged,
        N2kts_AlertYes] at hpost

/-- C3: in any reachable state, a public operation that moves the
threshold status into Exceeded leaves the occurrence counter at or above
the occurrence threshold; and with occurrence threshold 1 a single
exceeding Greater-sample on a Normal, unacknowledged alert suffices to
reach Exceeded. -/
theorem exceededOnlyAtOccurenceThreshold (s : tN2kAlert) (op : tN2kOp)
    (hreach : tN2kReachable s)
    (hpre : s.ThresholdStatus ≠ N2kts_AlertThresholdStatusExceeded)
    (hpost : (tN2kStep op s).ThresholdStatus =
      N2kts_AlertThresholdStatusExceeded) :
    (tN2kStep op s).OccurenceThreshold ≤ (tN2kStep op s).Occurence ∧
    (∀ b : tN2kAlert, ∀ now v : Nat, b.OccurenceThreshold = 1 →
      b.ThresholdStatus = N2kts_AlertThresholdStatusNormal →
      b.AcknowledgeStatus = N2kts_AlertNo →
      b.ThresholdMethod = N2kts_AlertThresholddMethodGreater →
      b.ThresholdLevel < v →
      (TestAlertThreshold b now v).1.ThresholdStatus =
        N2kts_AlertThresholdStatusExceeded) := by
  constructor
  · cases op with
    | testAlertThreshold now v =>
        simp only [tN2kStep, TestAlertThreshold] at hpost ⊢
        split_ifs at hpost ⊢ <;>
          first
            | exact SetAlertExceeded_into_exceeded s hpre hpost
            | exact absurd hpost hpre
            | exact absurd hpost (by simp [ResetAlert,
                N2kts_AlertThresholdStatusNormal,
                N2kts_AlertThresholdStatusExceeded])
    | parseAlertResponse now m =>
        cases hd : ParseN2kPGN126984 m with
        | none =>
            simp only [tN2kStep, ParseAlertResponse, hd] at hpost ⊢
            exact absurd hpost hpre
        | some g =>
            simp only [tN2kStep, ParseAlertResponse, hd] at hpost ⊢
            split_ifs at hpost ⊢ <;> exact absurd hpost hpre
    | setAlertSystem sys subsys ackNid lang desc loc =>
        exact absurd hpost hpre
    | setAlertDataSource inst idx nid => exact absurd hpost hpre
    | setAlertThreshold method format level => exact absurd hpost hpre
    | setTemporarySilenceTime seconds => exact absurd hpost hpre
    | setOccurenceThreshold tv =>
        simp only [tN2kStep, SetOccurenceThreshold] at hpost ⊢
        split_ifs at hpost ⊢ <;> exact absurd hpost hpre
  · intro b now v hT1 hts hack hm hv
    rcases Nat.lt_or_ge 250 b.Occurence with hocc | hocc
    · have hgt : b.Occurence > 250 := hocc
      by_cases ht : b.SilenceDeadline ≤ now <;>
        simp [TestAlertThreshold, SetAlertExceeded, apply_ite, ite_self,
          hm, hv, hack, hts, hT1, hgt, ht,
          N2kts_AlertThresholddMethodGreater,
          N2kts_AlertThresholdStatusNormal,
          N2kts_AlertThresholdStatusExceeded, N2kts_AlertNo,
          N2kts_AlertYes]
    · have hng : ¬ b.Occurence > 250 := by omega
      have hmod : (b.Occurence + 1) % 256 = b.Occurence + 1 := by omega
      have hge2 : b.OccurenceThreshold ≤ b.Occurence + 1 := by omega
      by_cases ht : b.SilenceDeadline ≤ now <;>
        simp [TestAlertThreshold, SetAlertExceeded, apply_ite, ite_self,
          hm, hv, hack, hts, hT1, hng, hmod, hge2, ht,
          N2kts_AlertThresholddMethodGreater,
          N2kts_AlertThresholdStatusNormal,
          N2kts_AlertThresholdStatusExceeded, N2kts_AlertNo,
          N2kts_AlertYes]

/-- Witness for C3: from the freshly constructed `sampleAlert`
(occurrence threshold 1), one exceeding sample moves into Exceeded with
the counter at the threshold. -/
theorem exceededOnlyAtOccurenceThreshold_witness :
    tN2kReachable sampleAlert ∧
    sampleAlert.ThresholdStatus ≠ N2kts_AlertThresholdStatusExceeded ∧
    (tN2kStep (tN2kOp.testAlertThreshold 0 65)
        sampleAlert).ThresholdStatus =
      N2kts_AlertThresholdStatusExceeded ∧
    (tN2kStep (tN2kOp.testAlertThreshold 0 65)
        sampleAlert).OccurenceThreshold ≤
      (tN2kStep (tN2kOp.testAlertThreshold 0 65) sampleAlert).Occurence :=
  ⟨tN2kReachable.constructed 5 1 10 1 100 1 1 0 1 1 1 7 0 1 1 3 2 0 60
     [] [],
   by decide, by decide,
   (exceededOnlyAtOccurenceThreshold sampleAlert
     (tN2kOp.testAlertThreshold 0 65)
     (tN2kReachable.constructed 5 1 10 1 100 1 1 0 1 1 1 7 0 1 1 3 2 0 60
       [] [])
     (by decide) (by decide)).1⟩

/-! ## Claim C1 — codec round trip and the Alert Text truncation

`ParseN2kPGN126985` hands `GetVarStr` the size of its `char*` argument —
`sizeof(AlertTextDescription)`, the platform pointer size of 4 or 8 —
instead of the 50-byte text buffer capacity, so decoded texts are cut to
at most the pointer size.  The fixed-layout notification and response
kinds round-trip in full (`parseSetN2kPGN126983`,
`parseSetN2kPGN126984` above). -/

/-- C1 (code bug evaluated): encoding the sample Alert Text fields — a
ten-byte description "Temperatur" and six-byte location "Engine" — and
decoding the result truncates the description to the pointer size (8
bytes on a 64-bit host, 4 on the 32-bit target), losing its tail, while
every fixed-layout field of the same message is recovered exactly. -/
theorem alertTextRoundtripTruncated :
    ParseN2kPGN126985 8 (SetN2kPGN126985 sampleTextFields) =
      some { sampleTextFields with
             AlertTextDescription := [84, 101, 109, 112, 101, 114, 97, 116]
             AlertLocationTextDescription := [69, 110, 103, 105, 110, 101] } ∧
    ParseN2kPGN126985 4 (SetN2kPGN126985 sampleTextFields) =
      some { sampleTextFields with
             AlertTextDescription := [84, 101, 109, 112]
             AlertLocationTextDescription := [69, 110, 103, 105] } ∧
    (ParseN2kPGN126985 8 (SetN2kPGN126985 sampleTextFields)).map
        PGN126985Fields.AlertTextDescription ≠
      some sampleTextFields.AlertTextDescription ∧
    (ParseN2kPGN126985 4 (SetN2kPGN126985 sampleTextFields)).map
        PGN126985Fields.AlertLocationTextDescription ≠
      some sampleTextFields.AlertLocationTextDescription := by
  decide
